import Mathlib

/-!
Shallow embedding of the Soccer Player Stat Tracker (a React application) and
verification of its specification claims.

The embedding covers, translated from the JavaScript source:
  * the goal-tracking and stat-counter logic of the main component
    `src/components/GameStats.jsx` (goal lock, capacity limit, save flow with
    remote failure fallback, CSV goal timeline),
  * the game-history edit operation, in both source variants
    (the one that edits `ourGoals`/`theirGoals` as free numeric fields and the
    one that recomputes them from the edited `goalHistory`),
  * the half timer component (`Timers`) with wall-clock anchored timing,
  * the Firebase data layer `src/firebase/database.js`
    (`withRetry`, `validateGameData`, `saveGame`, `updateGame`).

JavaScript numbers that the program only ever uses as non-negative integers
are modelled as `Nat`; values that can go negative or be `NaN` are modelled as
`Int` or by an explicit `JsVal` type.  Wall-clock instants (`Date.now()`) are
milliseconds as `Nat`, supplied explicitly to every operation that samples the
clock.  A `setTimeout` driven boolean flag is modelled by the deadline until
which the flag is set.
-/

namespace SoccerApp

/-- `formatTime` from GameStats.jsx: seconds to a `M:SS` string
(`Math.floor(totalSeconds/60)` and `padStart(2, "0")` on the remainder). -/
def formatTime (totalSeconds : Nat) : String :=
  let minutes := totalSeconds / 60
  let seconds := totalSeconds % 60
  toString minutes ++ ":" ++
    (if seconds < 10 then "0" ++ toString seconds else toString seconds)

/-- `parseTimeToSeconds` from the GameHistory variant: splits on `:` and
converts both parts with `Number`, defaulting a missing second part to `0`.
Non-numeric parts are modelled as `0`. -/
def parseTimeToSeconds (t : String) : Nat :=
  match t.splitOn ":" with
  | [] => 0
  | [m] => (m.toNat?.getD 0) * 60
  | m :: s :: _ => (m.toNat?.getD 0) * 60 + (s.toNat?.getD 0)

/-- `toFixed(1)` on a non-negative rational: round to one decimal digit and
render as `w.d`.  (JavaScript rounds half away from zero on non-negative
inputs, which on non-negatives agrees with `round` below.) -/
def toFixed1 (q : ℚ) : String :=
  let n : Int := round (q * 10)
  toString (n / 10) ++ "." ++ toString (n % 10)

/-- The percentage-rate pattern used throughout GameStats.jsx:
`d > 0 ? ((n / d) * 100).toFixed(1) + percent : zero-percent`. -/
def ratePct (n d : Nat) : String :=
  if d > 0 then toFixed1 ((n : ℚ) / (d : ℚ) * 100) ++ "%" else "0%"

/-- One goal event as stored by `addOurGoal`/`addTheirGoal`:
`{ time: formatTime(halftimeSeconds), minute: floor(halftimeSeconds/60),
timestamp: Date.now() }`. -/
structure Goal where
  time : String
  minute : Nat
  timestamp : Nat
deriving Repr, DecidableEq

/-- `MAX_GOALS_PER_GAME` from GameStats.jsx. -/
def MAX_GOALS_PER_GAME : Nat := 20

/-- The live state of the `GameStats` component: the pieces of React state
that the verified operations read or write.  `lockUntil` models the
`isAddingGoal` flag: the flag is set by `setIsAddingGoal(true)` and cleared by
`setTimeout(() => setIsAddingGoal(false), 500)`, so it is set exactly until
500 ms after the goal that set it. -/
structure GameStatsState where
  date : String
  playerName : String
  opponent : String
  gameType : String
  halftimeMinutes : Nat
  halftimeSeconds : Nat
  playerMinutes : Nat
  lockUntil : Nat
  ourGoals : List Goal
  theirGoals : List Goal
  goalsLeft : Nat
  goalsRight : Nat
  shotsLeft : Nat
  shotsRight : Nat
  assists : Nat
  passCompletions : Nat
  cornersTaken : Nat
  cornerConversions : Nat
  fouls : Nat
  cards : Nat
  gkShotsSaved : Nat
  gkGoalsAgainst : Nat
  gameNotes : String
deriving Repr, DecidableEq

/-- The `isAddingGoal` flag at wall-clock instant `now`. -/
def isAddingGoal (now : Nat) (s : GameStatsState) : Bool :=
  now < s.lockUntil

/-- The error kind the specification says a full goal timeline signals.
The source rejects with a bare `return`, so its embedding never produces a
value of this type; it is the observation channel for the rejection claim. -/
inductive GoalSignal where
  | capacityExceeded
deriving Repr, DecidableEq

/-- `addOurGoal` from GameStats.jsx.  Guard: `isAddingGoal ||
ourGoals.length >= MAX_GOALS_PER_GAME` returns with no state change and no
signalled error (the source is a bare `return`).  Otherwise it sets the lock,
stamps the goal with the current game clock, and appends it. -/
def addOurGoal (now : Nat) (s : GameStatsState) :
    GameStatsState × Option GoalSignal :=
  if isAddingGoal now s || MAX_GOALS_PER_GAME ≤ s.ourGoals.length then
    (s, none)
  else
    ({ s with
        lockUntil := now + 500,
        ourGoals := s.ourGoals ++
          [⟨formatTime s.halftimeSeconds, s.halftimeSeconds / 60, now⟩] },
     none)

/-- `addTheirGoal` from GameStats.jsx, symmetric to `addOurGoal`. -/
def addTheirGoal (now : Nat) (s : GameStatsState) :
    GameStatsState × Option GoalSignal :=
  if isAddingGoal now s || MAX_GOALS_PER_GAME ≤ s.theirGoals.length then
    (s, none)
  else
    ({ s with
        lockUntil := now + 500,
        theirGoals := s.theirGoals ++
          [⟨formatTime s.halftimeSeconds, s.halftimeSeconds / 60, now⟩] },
     none)

/-- `removeLastOurGoal` from GameStats.jsx: no-op while `isAddingGoal`,
otherwise `slice(0, -1)`. -/
def removeLastOurGoal (now : Nat) (s : GameStatsState) : GameStatsState :=
  if isAddingGoal now s then s
  else { s with ourGoals := s.ourGoals.dropLast }

/-- `removeLastTheirGoal` from GameStats.jsx. -/
def removeLastTheirGoal (now : Nat) (s : GameStatsState) : GameStatsState :=
  if isAddingGoal now s then s
  else { s with theirGoals := s.theirGoals.dropLast }

/-- `gameResult` computation repeated in `saveGame` and both `saveEdit`
variants: `Win` / `Loss` / `Tie` by comparing the two goal counts. -/
def computeGameResult (our their : Nat) : String :=
  if their < our then "Win" else if our < their then "Loss" else "Tie"

/-- A saved game record, with the fields of the object literal built in
`saveGame` of GameStats.jsx.  `createdAt`/`lastModified` metadata and the
sanitized-string aspect of text fields are outside the verified claims and
are omitted / kept as plain strings. -/
structure GameRecord where
  id : String
  date : String
  playerName : String
  opponent : String
  gameType : String
  ourGoals : Nat
  theirGoals : Nat
  gameResult : String
  goalHistoryOur : List Goal
  goalHistoryTheir : List Goal
  halftimeMinutes : Nat
  halftimeElapsed : String
  halftimeRemaining : String
  halftimeComplete : Bool
  playerMinutesPlayed : String
  playerSecondsPlayed : Nat
  goalsLeft : Nat
  goalsRight : Nat
  shotsLeft : Nat
  shotsRight : Nat
  assists : Nat
  passCompletions : Nat
  cornersTaken : Nat
  cornerConversions : Nat
  fouls : Nat
  cards : Nat
  gkShotsSaved : Nat
  gkGoalsAgainst : Nat
  gameNotes : String
  totalGoals : Nat
  totalShots : Nat
  goalConversionRate : String
  cornerConversionRate : String
deriving Repr, DecidableEq

/-- The `newGame` object literal built by `saveGame` in GameStats.jsx from the
live component state (the `id` is filled in later: by Firestore on success,
or with `local_` + `Date.now()` in the catch branch). -/
def mkNewGame (s : GameStatsState) : GameRecord :=
  let halftimeRemaining := (s.halftimeMinutes * 60) - s.halftimeSeconds
  { id := ""
    date := s.date
    playerName := s.playerName
    opponent := s.opponent
    gameType := s.gameType
    ourGoals := s.ourGoals.length
    theirGoals := s.theirGoals.length
    gameResult := computeGameResult s.ourGoals.length s.theirGoals.length
    goalHistoryOur := s.ourGoals
    goalHistoryTheir := s.theirGoals
    halftimeMinutes := s.halftimeMinutes
    halftimeElapsed := formatTime s.halftimeSeconds
    halftimeRemaining := formatTime halftimeRemaining
    halftimeComplete := decide (s.halftimeMinutes * 60 ≤ s.halftimeSeconds)
    playerMinutesPlayed := formatTime s.playerMinutes
    playerSecondsPlayed := s.playerMinutes
    goalsLeft := s.goalsLeft
    goalsRight := s.goalsRight
    shotsLeft := s.shotsLeft
    shotsRight := s.shotsRight
    assists := s.assists
    passCompletions := s.passCompletions
    cornersTaken := s.cornersTaken
    cornerConversions := s.cornerConversions
    fouls := s.fouls
    cards := s.cards
    gkShotsSaved := s.gkShotsSaved
    gkGoalsAgainst := s.gkGoalsAgainst
    gameNotes := s.gameNotes
    totalGoals := s.goalsLeft + s.goalsRight
    totalShots := s.shotsLeft + s.shotsRight
    goalConversionRate :=
      ratePct (s.goalsLeft + s.goalsRight) (s.shotsLeft + s.shotsRight)
    cornerConversionRate := ratePct s.cornerConversions s.cornersTaken }

/-- `validateStats` from GameStats.jsx: the list of soft warnings. -/
def validateStatsWarnings (s : GameStatsState) : List String :=
  (if s.shotsLeft < s.goalsLeft
    then ["Left foot goals exceed shots"] else []) ++
  (if s.shotsRight < s.goalsRight
    then ["Right foot goals exceed shots"] else []) ++
  (if s.cornersTaken < s.cornerConversions
    then ["Corner conversions exceed corners taken"] else [])

/-- The per-game counter reset performed at the end of both branches of
`saveGame` (`setGoalsLeft(0)` ... `setGameNotes("")`). -/
def resetStats (s : GameStatsState) : GameStatsState :=
  { s with
      goalsLeft := 0, goalsRight := 0, shotsLeft := 0, shotsRight := 0,
      assists := 0, passCompletions := 0,
      cornersTaken := 0, cornerConversions := 0,
      fouls := 0, cards := 0, gkShotsSaved := 0, gkGoalsAgainst := 0,
      ourGoals := [], theirGoals := [], gameNotes := "" }

/-- Outcome of the remote `gameService.saveGame` call as observed by the
component: success with the Firestore-assigned id, or a thrown error. -/
inductive RemoteOutcome where
  | ok (id : String)
  | failed
deriving Repr, DecidableEq

/-- Everything the component stores outside its live counters: the
`savedGames` React state, the `localStorage` mirror written by
`saveToLocalStorage`, the sync status, and the last alert shown. -/
structure PersistState where
  savedGames : List GameRecord
  localCache : List GameRecord
  syncStatus : String
  lastAlert : Option String
deriving Repr, DecidableEq

/-- `saveGame` from GameStats.jsx.  `confirmOk` is the result of the
`window.confirm` prompt shown when `validateStats` returns warnings; `remote`
is the outcome of the awaited `gameService.saveGame` call; `now` is
`Date.now()` in the catch branch.  On success: prepend the saved record,
mirror to localStorage, mark synced, reset the counters.  On failure: alert,
build the same record with a `local_` id, prepend it, mirror to localStorage,
mark the sync status as an error, and reset the counters anyway. -/
def saveGame (now : Nat) (remote : RemoteOutcome) (confirmOk : Bool)
    (s : GameStatsState) (p : PersistState) :
    GameStatsState × PersistState :=
  if !(validateStatsWarnings s).isEmpty && !confirmOk then (s, p)
  else
    match remote with
    | .ok rid =>
      let savedGame := { mkNewGame s with id := rid }
      let updatedGames := savedGame :: p.savedGames
      (resetStats s,
       { savedGames := updatedGames, localCache := updatedGames,
         syncStatus := "synced", lastAlert := p.lastAlert })
    | .failed =>
      let newGame := { mkNewGame s with id := "local_" ++ toString now }
      let updatedGames := newGame :: p.savedGames
      (resetStats s,
       { savedGames := updatedGames, localCache := updatedGames,
         syncStatus := "error",
         lastAlert := some ("Failed to save game to cloud. Data saved locally and will sync later.") })

/-- The edit form of the GameHistory variant whose `saveEdit` does not touch
the goal history (the fields populated by its `startEditing`). -/
structure EditFormV1 where
  date : String
  playerName : String
  opponent : String
  ourGoals : Nat
  theirGoals : Nat
  goalsLeft : Nat
  goalsRight : Nat
  shotsLeft : Nat
  shotsRight : Nat
  assists : Nat
  passCompletions : Nat
  cornersTaken : Nat
  cornerConversions : Nat
  fouls : Nat
  cards : Nat
  gkShotsSaved : Nat
  gkGoalsAgainst : Nat
deriving Repr, DecidableEq

/-- `saveEdit` of the first GameHistory variant: spread of the original game,
then the form fields, then recomputed derived fields.  `ourGoals` and
`theirGoals` come straight from the form; `goalHistory` keeps the original
value; `gameResult` is recomputed from the form counts. -/
def saveEditV1 (orig : GameRecord) (f : EditFormV1) : GameRecord :=
  { orig with
      date := f.date, playerName := f.playerName, opponent := f.opponent,
      ourGoals := f.ourGoals, theirGoals := f.theirGoals,
      goalsLeft := f.goalsLeft, goalsRight := f.goalsRight,
      shotsLeft := f.shotsLeft, shotsRight := f.shotsRight,
      assists := f.assists, passCompletions := f.passCompletions,
      cornersTaken := f.cornersTaken,
      cornerConversions := f.cornerConversions,
      fouls := f.fouls, cards := f.cards,
      gkShotsSaved := f.gkShotsSaved, gkGoalsAgainst := f.gkGoalsAgainst,
      totalGoals := f.goalsLeft + f.goalsRight,
      totalShots := f.shotsLeft + f.shotsRight,
      goalConversionRate :=
        ratePct (f.goalsLeft + f.goalsRight) (f.shotsLeft + f.shotsRight),
      cornerConversionRate := ratePct f.cornerConversions f.cornersTaken,
      gameResult := computeGameResult f.ourGoals f.theirGoals }

/-- The edit form of the GameHistory variant that also edits the goal
history (its `startEditing` copies `goalHistory` into the form). -/
structure EditFormV2 where
  date : String
  playerName : String
  opponent : String
  goalsLeft : Nat
  goalsRight : Nat
  shotsLeft : Nat
  shotsRight : Nat
  assists : Nat
  passCompletions : Nat
  cornersTaken : Nat
  cornerConversions : Nat
  fouls : Nat
  cards : Nat
  gkShotsSaved : Nat
  gkGoalsAgainst : Nat
  playerMinutesPlayed : String
  gameNotes : String
  goalHistoryOur : List Goal
  goalHistoryTheir : List Goal
deriving Repr, DecidableEq

/-- `saveEdit` of the goal-history-editing GameHistory variant: `ourGoals`
and `theirGoals` are recomputed as the lengths of the edited goal history,
and `gameResult` by comparing those lengths. -/
def saveEditV2 (orig : GameRecord) (f : EditFormV2) : GameRecord :=
  { orig with
      date := f.date, playerName := f.playerName, opponent := f.opponent,
      goalHistoryOur := f.goalHistoryOur,
      goalHistoryTheir := f.goalHistoryTheir,
      ourGoals := f.goalHistoryOur.length,
      theirGoals := f.goalHistoryTheir.length,
      goalsLeft := f.goalsLeft, goalsRight := f.goalsRight,
      shotsLeft := f.shotsLeft, shotsRight := f.shotsRight,
      assists := f.assists, passCompletions := f.passCompletions,
      cornersTaken := f.cornersTaken,
      cornerConversions := f.cornerConversions,
      fouls := f.fouls, cards := f.cards,
      gkShotsSaved := f.gkShotsSaved, gkGoalsAgainst := f.gkGoalsAgainst,
      playerMinutesPlayed := f.playerMinutesPlayed,
      playerSecondsPlayed := parseTimeToSeconds f.playerMinutesPlayed,
      gameNotes := f.gameNotes,
      totalGoals := f.goalsLeft + f.goalsRight,
      totalShots := f.shotsLeft + f.shotsRight,
      goalConversionRate :=
        ratePct (f.goalsLeft + f.goalsRight) (f.shotsLeft + f.shotsRight),
      cornerConversionRate := ratePct f.cornerConversions f.cornersTaken,
      gameResult := computeGameResult f.goalHistoryOur.length
        f.goalHistoryTheir.length }

/-- The record invariant of the specification: the stored goal counts equal
the goal-history lengths and `gameResult` is derived from them. -/
def recordInvariant (r : GameRecord) : Prop :=
  r.ourGoals = r.goalHistoryOur.length ∧
  r.theirGoals = r.goalHistoryTheir.length ∧
  r.gameResult = computeGameResult r.ourGoals r.theirGoals

instance (r : GameRecord) : Decidable (recordInvariant r) := by
  unfold recordInvariant; infer_instance

/-- State of the `Timers` (half timer) component: `seconds` is the displayed
elapsed value, `accumulated` the folded total (`accumulatedRef`), `startTime`
the running anchor (`startTimeRef`, `none` when cleared), `currentHalf` is
`1` or `2`. -/
structure TimerState where
  seconds : Nat
  isRunning : Bool
  currentHalf : Nat
  accumulated : Nat
  startTime : Option Nat
  halftimeMinutes : Nat
deriving Repr, DecidableEq

/-- `totalHalftimeSeconds = halftimeMinutes * 60`. -/
def TimerState.total (s : TimerState) : Nat := s.halftimeMinutes * 60

/-- `remainingSeconds = Math.max(0, totalHalftimeSeconds - seconds)`
(truncated subtraction on `Nat` is exactly this). -/
def TimerState.remainingSeconds (s : TimerState) : Nat :=
  s.total - s.seconds

/-- `isTimeUp = remainingSeconds === 0`. -/
def TimerState.isTimeUp (s : TimerState) : Bool :=
  s.remainingSeconds == 0

/-- `startTimer`: only `if (!isRunning && !isTimeUp)` does it set the
running flag and stamp `startTimeRef.current = Date.now()`. -/
def startTimer (now : Nat) (s : TimerState) : TimerState :=
  if !s.isRunning && !s.isTimeUp then
    { s with isRunning := true, startTime := some now }
  else s

/-- `pauseTimer`: only while running; folds
`Math.floor((Date.now() - startTimeRef.current) / 1000)` into the
accumulated total and displays it — with no clamping against
`totalHalftimeSeconds`. -/
def pauseTimer (now : Nat) (s : TimerState) : TimerState :=
  if s.isRunning then
    let additionalTime := (now - s.startTime.getD 0) / 1000
    let newTotal := s.accumulated + additionalTime
    { s with accumulated := newTotal, seconds := newTotal,
             isRunning := false }
  else s

/-- One firing of the `setInterval` tick: recomputes the elapsed total from
the wall-clock anchor, clamps it with
`Math.min(newTotal, totalHalftimeSeconds)`, and stops the timer when the cap
is reached.  The interval only exists `if (isRunning && !isTimeUp)`. -/
def tick (now : Nat) (s : TimerState) : TimerState :=
  if s.isRunning && !s.isTimeUp then
    let elapsed := (now - s.startTime.getD 0) / 1000
    let newTotal := s.accumulated + elapsed
    let cappedTotal := min newTotal s.total
    { s with seconds := cappedTotal,
             isRunning := if s.total ≤ cappedTotal then false
                          else s.isRunning }
  else s

/-- `startSecondHalf`: move to the second half with a zeroed clock, paused. -/
def startSecondHalf (s : TimerState) : TimerState :=
  { s with currentHalf := 2, seconds := 0, accumulated := 0,
           startTime := none, isRunning := false }

/-- `resetTimer`: back to the first half, paused, zeroed clock. -/
def resetTimer (s : TimerState) : TimerState :=
  { s with isRunning := false, seconds := 0, currentHalf := 1,
           accumulated := 0, startTime := none }

/-- The `disabled` condition of the halftime-minutes select in the `Timers`
component is `isRunning || currentHalf === 2`; the change is possible only
when that is false. -/
def canChangeDuration (s : TimerState) : Bool :=
  !s.isRunning && !(s.currentHalf == 2)

/-- A user change of the halftime-minutes select: if the control is enabled,
`setHalftimeMinutes` fires and the effect on `halftimeMinutes` runs — it
resets the value to `30` when out of the `1..90` range (after a console
warning) and otherwise calls `resetTimer()`.  If the control is disabled the
change never happens. -/
def setDuration (m : Nat) (s : TimerState) : TimerState :=
  if canChangeDuration s then
    if m < 1 || 90 < m then
      resetTimer { s with halftimeMinutes := 30 }
    else
      resetTimer { s with halftimeMinutes := m }
  else s

/-- `handleHalftimeUpdate` from GameStats.jsx: the timer child pushes the
current total game seconds into `halftimeSeconds`. -/
def handleHalftimeUpdate (sec : Nat) (s : GameStatsState) : GameStatsState :=
  { s with halftimeSeconds := sec }

/-- Initial `GameStats` component state (the `useState` initialisers);
`date0` stands for the formatted current date. -/
def initialState (date0 : String) : GameStatsState :=
  { date := date0, playerName := "", opponent := "", gameType := "League",
    halftimeMinutes := 30, halftimeSeconds := 0, playerMinutes := 0,
    lockUntil := 0, ourGoals := [], theirGoals := [],
    goalsLeft := 0, goalsRight := 0, shotsLeft := 0, shotsRight := 0,
    assists := 0, passCompletions := 0,
    cornersTaken := 0, cornerConversions := 0,
    fouls := 0, cards := 0, gkShotsSaved := 0, gkGoalsAgainst := 0,
    gameNotes := "" }

/-- A goal tagged with its side, as in the display timeline
(`{...g, type: us-or-them}`). -/
structure TaggedGoal where
  time : String
  minute : Nat
  timestamp : Nat
  isUs : Bool
deriving Repr, DecidableEq

/-- The comparison order of the on-screen goal timeline of GameStats.jsx:
`sort((a, b) => a.timestamp - b.timestamp)` orders by the insertion
wall-clock timestamp (not by the game-clock position). -/
def tgByTimestamp (a b : TaggedGoal) : Prop := a.timestamp ≤ b.timestamp

instance : DecidableRel tgByTimestamp := fun a b =>
  inferInstanceAs (Decidable (a.timestamp ≤ b.timestamp))

/-- The on-screen goal timeline of GameStats.jsx: both lists tagged, then
stably sorted by insertion timestamp (`Array.prototype.sort` is stable,
as is `insertionSort`). -/
def displayTimeline (our their : List Goal) : List TaggedGoal :=
  ((our.map fun g => TaggedGoal.mk g.time g.minute g.timestamp true) ++
   (their.map fun g => TaggedGoal.mk g.time g.minute g.timestamp false)).insertionSort
    tgByTimestamp

/-- The string order used by JavaScript default `.sort()`: lexicographic
comparison of the code units, which for the ASCII strings the timeline
produces is the lexicographic order of the character lists. -/
def jsStrLe (a b : String) : Prop := a.data ≤ b.data

instance : DecidableRel jsStrLe := fun a b =>
  inferInstanceAs (Decidable (a.data ≤ b.data))

/-- The `goalTimeline` cell of `generateEnhancedCSV`: each goal rendered as
its formatted time plus the side label, then JavaScript default `.sort()`
(stable, lexicographic on strings). -/
def csvTimeline (our their : List Goal) : List String :=
  ((our.map fun g => g.time ++ " Us") ++
   (their.map fun g => g.time ++ " Them")).insertionSort jsStrLe

/-- Result of one attempt of a remote operation, as `withRetry` sees it:
success or an error carrying its `code`. -/
inductive AttemptResult (α : Type) where
  | ok (a : α)
  | err (code : String)
deriving Repr, DecidableEq

/-- Recursion of `withRetry` from database.js over the attempt counter.
`op n` is the outcome of the `n`-th execution of the wrapped operation.
Returns the final outcome, the number of attempts made, and the list of
backoff delays (`delay * Math.pow(2, attempt - 1)` milliseconds) slept
between attempts.  `fuel` is `maxRetries - attempt + 1`, the number of
attempts still allowed. -/
def withRetryGo {α : Type} (op : Nat → AttemptResult α)
    (delay maxRetries : Nat) :
    Nat → Nat → AttemptResult α × Nat × List Nat
  | attempt, 0 => (AttemptResult.err ("unreachable"), attempt - 1, [])
  | attempt, fuel + 1 =>
    match op attempt with
    | .ok a => (.ok a, attempt, [])
    | .err c =>
      if attempt == maxRetries || c == "permission-denied" then
        (.err c, attempt, [])
      else
        let rest := withRetryGo op delay maxRetries (attempt + 1) fuel
        (rest.1, rest.2.1, delay * 2 ^ (attempt - 1) :: rest.2.2)

/-- `withRetry` from database.js with its default parameters
`maxRetries = 3, delay = 1000`, under which every `gameService` operation
(save / load / update / delete) wraps its Firestore call. -/
def withRetry {α : Type} (op : Nat → AttemptResult α) :
    AttemptResult α × Nat × List Nat :=
  withRetryGo op 1000 3 1 3

/-- A JavaScript numeric field value after `Number(...)` conversion:
`NaN` or a finite numeric value (modelled as a rational). -/
inductive JsVal where
  | nan
  | num (q : ℚ)
deriving Repr, DecidableEq

/-- The numeric-field sanitisation of `validateGameData`:
`isNaN(value) || value < 0` becomes `0`, anything else `Math.floor(value)`. -/
def coerceNumeric : JsVal → Int
  | .nan => 0
  | .num q => if q < 0 then 0 else ⌊q⌋

/-- The `numericFields` list of `validateGameData`. -/
def numericFields : List String :=
  ["goalsLeft", "goalsRight", "shotsLeft", "shotsRight",
   "assists", "passCompletions", "cornersTaken", "cornerConversions",
   "offensive1v1Attempts", "offensive1v1Won",
   "defensive1v1Attempts", "defensive1v1Won",
   "fouls", "cards", "gkShotsSaved", "gkGoalsAgainst",
   "ourGoals", "theirGoals",
   "freeKicksTaken", "freeKicksMade",
   "defensiveTackles", "defensiveFailures",
   "defensiveDisruption", "defensiveDistribution"]

/-- A game object as handed to the data layer: the two required string
fields, and the numeric fields present on the object as an association list
with unique keys (a field absent from the list is `undefined`). -/
structure RawGame where
  date : String
  playerName : String
  nums : List (String × JsVal)
deriving Repr, DecidableEq

/-- JavaScript falsiness of the required string fields: the check
`!gameData[field]` is true for a missing or empty string. -/
def jsFalsy (s : String) : Bool := s == ""

/-- `validateGameData` from database.js: throws a `DatabaseError` naming the
missing required fields when `date` or `playerName` is falsy; otherwise
coerces every present listed numeric field with `coerceNumeric`. -/
def validateGameData (g : RawGame) : Except String RawGame :=
  let missing :=
    (if jsFalsy g.date then ["date"] else []) ++
    (if jsFalsy g.playerName then ["playerName"] else [])
  if !missing.isEmpty then
    .error ("Missing required fields: " ++ String.intercalate ", " missing)
  else
    .ok { g with
            nums := g.nums.map fun fv =>
              if fv.1 ∈ numericFields then
                (fv.1, JsVal.num ((coerceNumeric fv.2 : Int) : ℚ))
              else fv }

/-- `gameService.saveGame` from database.js: requires a PIN, validates, and
only then performs the Firestore `addDoc` under `withRetry`.  `remoteAdd n`
is the outcome of the `n`-th `addDoc` attempt (success carries the new
document id).  Besides the result, the number of remote write attempts
actually performed is returned: `0` means nothing was ever persisted. -/
def dbSaveGame (pin : Option String) (g : RawGame)
    (remoteAdd : Nat → AttemptResult String) :
    Except String (String × RawGame) × Nat :=
  match pin with
  | none => (.error ("No user PIN set"), 0)
  | some _ =>
    match validateGameData g with
    | .error e => (.error ("Failed to save game: " ++ e), 0)
    | .ok validated =>
      let r := withRetry remoteAdd
      match r.1 with
      | .ok docId => (.ok (docId, validated), r.2.1)
      | .err c => (.error ("Failed to save game: " ++ c), r.2.1)

/-- `gameService.updateGame` from database.js: same validation gate in front
of the Firestore `updateDoc` under `withRetry`. -/
def dbUpdateGame (pin : Option String) (gameId : String) (g : RawGame)
    (remoteUpdate : Nat → AttemptResult Unit) :
    Except String (String × RawGame) × Nat :=
  match pin with
  | none => (.error ("No user PIN set"), 0)
  | some _ =>
    match validateGameData g with
    | .error e => (.error ("Failed to update game: " ++ e), 0)
    | .ok validated =>
      let r := withRetry remoteUpdate
      match r.1 with
      | .ok _ => (.ok (gameId, validated), r.2.1)
      | .err c => (.error ("Failed to update game: " ++ c), r.2.1)

/-- `gameService.loadGames` from database.js: the Firestore query runs under
`withRetry` after the PIN check.  Returns the result and the number of remote
attempts. -/
def dbLoadGames (pin : Option String)
    (remoteQuery : Nat → AttemptResult (List RawGame)) :
    Except String (List RawGame) × Nat :=
  match pin with
  | none => (.error ("No user PIN set"), 0)
  | some _ =>
    let r := withRetry remoteQuery
    match r.1 with
    | .ok games => (.ok games, r.2.1)
    | .err c => (.error ("Failed to load games: " ++ c), r.2.1)

/-- `gameService.deleteGame` from database.js: `deleteDoc` under
`withRetry` (no PIN check on this path). -/
def dbDeleteGame (remoteDelete : Nat → AttemptResult Unit) :
    Except String Bool × Nat :=
  let r := withRetry remoteDelete
  match r.1 with
  | .ok _ => (.ok true, r.2.1)
  | .err c => (.error ("Failed to delete game: " ++ c), r.2.1)

/-- Initial `Timers` component state: `seconds = 0`, not running, first
half, zero accumulated time, no start anchor. -/
def timerInit (m : Nat) : TimerState :=
  { seconds := 0, isRunning := false, currentHalf := 1,
    accumulated := 0, startTime := none, halftimeMinutes := m }

/-- `increment` from GameStats.jsx: `setter(value + 1)`.  The carrier is
`Int` because JavaScript numbers have no non-negativity guarantee; whether a
counter can go negative is exactly what is at stake. -/
def increment (value : Int) : Int := value + 1

/-- `decrement` from GameStats.jsx: `setter(value > 0 ? value - 1 : 0)`. -/
def decrement (value : Int) : Int := if 0 < value then value - 1 else 0

/-- `handleStatChange` from the legacy single-file App variant:
`prev[stat] + delta`, with no lower bound. -/
def handleStatChange (stat delta : Int) : Int := stat + delta

/-- One button press on a stat counter of the GameStats component. -/
inductive StatOp where
  | inc
  | dec
deriving Repr, DecidableEq

/-- A sequence of increment/decrement presses applied to one counter. -/
def applyOps : List StatOp → Int → Int
  | [], v => v
  | op :: rest, v =>
    applyOps rest (match op with
      | .inc => increment v
      | .dec => decrement v)

/-- All the per-game counters that `saveGame` resets are at their
fresh-game defaults. -/
def countersReset (s : GameStatsState) : Prop :=
  s.goalsLeft = 0 ∧ s.goalsRight = 0 ∧ s.shotsLeft = 0 ∧ s.shotsRight = 0 ∧
  s.assists = 0 ∧ s.passCompletions = 0 ∧
  s.cornersTaken = 0 ∧ s.cornerConversions = 0 ∧
  s.fouls = 0 ∧ s.cards = 0 ∧ s.gkShotsSaved = 0 ∧ s.gkGoalsAgainst = 0 ∧
  s.ourGoals = [] ∧ s.theirGoals = [] ∧ s.gameNotes = ""

instance (s : GameStatsState) : Decidable (countersReset s) := by
  unfold countersReset; infer_instance

/-!  ## Theorems for the specification claims  -/

/-- A record created with one live goal for our side, as left by one
successful `addOurGoal` at game-clock second 10. -/
def c1Record : GameRecord :=
  { mkNewGame (addOurGoal 1000 (handleHalftimeUpdate 10
      (initialState "2026-01-01"))).1 with id := "remote1" }

/-- An edit of `c1Record` through the form of the GameHistory variant that
does not expose the goal history, raising `ourGoals` to 5. -/
def c1Form : EditFormV1 :=
  { date := "2026-01-01", playerName := "A", opponent := "B",
    ourGoals := 5, theirGoals := 0,
    goalsLeft := 0, goalsRight := 0, shotsLeft := 0, shotsRight := 0,
    assists := 0, passCompletions := 0,
    cornersTaken := 0, cornerConversions := 0,
    fouls := 0, cards := 0, gkShotsSaved := 0, gkGoalsAgainst := 0 }

/-- C1 counterexample: after an edit through the GameHistory variant whose
form carries `ourGoals` as a free numeric field, the edited record has
`ourGoals = 5` while its goal history still holds a single goal, so the
claimed invariant fails after this edit. -/
theorem c1_invariant_fails_after_plain_edit :
    (saveEditV1 c1Record c1Form).ourGoals = 5 ∧
    (saveEditV1 c1Record c1Form).goalHistoryOur.length = 1 ∧
    ¬ recordInvariant (saveEditV1 c1Record c1Form) := by
  decide

/-- C1 (amended): the invariant `ourGoals = |goalHistory.our|`,
`theirGoals = |goalHistory.their|`, `gameResult` derived from the counts
holds for every record built by `saveGame` (with any assigned id) and after
every edit through the GameHistory variant that edits the goal history; the
variant that edits the counts as free numeric fields still keeps
`gameResult` consistent with its stored `ourGoals`/`theirGoals`. -/
theorem c1_record_invariant :
    (∀ (s : GameStatsState) (rid : String),
      recordInvariant { mkNewGame s with id := rid }) ∧
    (∀ (orig : GameRecord) (f : EditFormV2),
      recordInvariant (saveEditV2 orig f)) ∧
    (∀ (orig : GameRecord) (f : EditFormV1),
      (saveEditV1 orig f).gameResult =
        computeGameResult (saveEditV1 orig f).ourGoals
          (saveEditV1 orig f).theirGoals) :=
  ⟨fun _ _ => ⟨rfl, rfl, rfl⟩, fun _ _ => ⟨rfl, rfl, rfl⟩, fun _ _ => rfl⟩

/-- C2 counterexample: with a 30-minute half (1800 s), starting the timer at
wall-clock 0 and pausing it 1805 s later (no tick having fired in between,
e.g. a backgrounded tab) folds the unclamped delta in: the displayed elapsed
value becomes 1805 > 1800, and `isTimeUp` is then true although elapsed does
not equal `halfDurationSeconds`. -/
theorem c2_elapsed_exceeds_duration :
    (pauseTimer 1805000 (startTimer 0 (timerInit 30))).seconds = 1805 ∧
    (pauseTimer 1805000 (startTimer 0 (timerInit 30))).total = 1800 ∧
    (pauseTimer 1805000 (startTimer 0 (timerInit 30))).isTimeUp = true := by
  decide

/-- C2 (amended): the tick recomputation clamps, so elapsed stays within
`halfDurationSeconds` under ticks; `isTimeUp` holds iff elapsed is at least
(not exactly) `halfDurationSeconds`; and once time is up `start()` is a
no-op and neither `start` nor `tick` (nor `pause`, the timer being stopped)
changes the elapsed value — but `pauseTimer` folds the wall-clock delta in
without clamping, so elapsed can exceed `halfDurationSeconds` through a
pause. -/
theorem c2_timer_props :
    (∀ (s : TimerState) (now : Nat),
      s.seconds ≤ s.total → (tick now s).seconds ≤ s.total) ∧
    (∀ s : TimerState, s.isTimeUp = true ↔ s.total ≤ s.seconds) ∧
    (∀ (s : TimerState) (now : Nat), s.isTimeUp = true →
      startTimer now s = s ∧ tick now s = s ∧
        (s.isRunning = false → pauseTimer now s = s)) := by
  refine ⟨?_, ?_, ?_⟩
  · intro s now h
    unfold tick
    split
    · simp only [TimerState.total]
      omega
    · exact h
  · intro s
    unfold TimerState.isTimeUp TimerState.remainingSeconds TimerState.total
    simp [Nat.sub_eq_zero_iff_le]
  · intro s now h
    refine ⟨?_, ?_, ?_⟩
    · unfold startTimer
      simp [h]
    · unfold tick
      simp [h]
    · intro hr
      unfold pauseTimer
      simp [hr]

/-- Witness for `c2_timer_props` at concrete inputs: a clamped tick on a
freshly started 30-minute timer, the `isTimeUp` characterisation on the
initial state, and the frozen state after the overshooting pause of the
counterexample scenario. -/
theorem c2_timer_props_witness :
    ((tick 5000 (startTimer 0 (timerInit 30))).seconds ≤
      (startTimer 0 (timerInit 30)).total) ∧
    ((timerInit 45).isTimeUp = true ↔
      (timerInit 45).total ≤ (timerInit 45).seconds) ∧
    startTimer 2000000 (pauseTimer 1805000 (startTimer 0 (timerInit 30))) =
      pauseTimer 1805000 (startTimer 0 (timerInit 30)) :=
  ⟨c2_timer_props.1 _ 5000 (by decide),
   c2_timer_props.2.1 _,
   (c2_timer_props.2.2 _ 2000000 (by decide)).1⟩

/-- C3 (confirmed): when the remote save of a committed game fails (after
the data layer has exhausted its retries and rethrown), `saveGame` prepends
the record under the locally generated id `local_` + `Date.now()` to the
saved-games list, mirrors that list to the localStorage cache, surfaces the
failure (alert shown, sync status `error`), and still resets every per-game
counter — the record is kept and the next game can start. -/
theorem c3_local_fallback (now : Nat) (s : GameStatsState)
    (p : PersistState) :
    (saveGame now RemoteOutcome.failed true s p).2.savedGames =
      { mkNewGame s with id := "local_" ++ toString now } :: p.savedGames ∧
    (saveGame now RemoteOutcome.failed true s p).2.localCache =
      (saveGame now RemoteOutcome.failed true s p).2.savedGames ∧
    (saveGame now RemoteOutcome.failed true s p).2.lastAlert =
      some ("Failed to save game to cloud. Data saved locally and will sync later.") ∧
    (saveGame now RemoteOutcome.failed true s p).2.syncStatus = "error" ∧
    countersReset (saveGame now RemoteOutcome.failed true s p).1 := by
  unfold saveGame
  simp [countersReset, resetStats]

/-- Witness for `c3_local_fallback`: no hypothesis to discharge beyond the
concrete instantiation; evaluated on the fresh component state with an
empty persistence state at `Date.now() = 7777`. -/
theorem c3_local_fallback_witness :
    (saveGame 7777 RemoteOutcome.failed true (initialState "2026-01-01")
      { savedGames := [], localCache := [], syncStatus := "idle",
        lastAlert := none }).2.savedGames =
      { mkNewGame (initialState "2026-01-01") with id := "local_7777" } ::
        [] :=
  (c3_local_fallback 7777 (initialState "2026-01-01")
    { savedGames := [], localCache := [], syncStatus := "idle",
      lastAlert := none }).1

/-- One unfolding step of the `withRetry` loop. -/
theorem withRetryGo_succ {α : Type} (op : Nat → AttemptResult α)
    (d m a f : Nat) :
    withRetryGo op d m a (f + 1) =
      match op a with
      | .ok x => (.ok x, a, [])
      | .err c =>
        if a == m || c == "permission-denied" then (.err c, a, [])
        else
          let rest := withRetryGo op d m (a + 1) f
          (rest.1, rest.2.1, d * 2 ^ (a - 1) :: rest.2.2) := rfl

/-- Full case characterisation of `withRetry` over the outcomes of the at
most three attempts. -/
theorem withRetry_cases {α : Type} (op : Nat → AttemptResult α) :
    withRetry op =
      match op 1 with
      | .ok a => (.ok a, 1, [])
      | .err c1 =>
        if c1 = "permission-denied" then (.err c1, 1, [])
        else
          match op 2 with
          | .ok a => (.ok a, 2, [1000])
          | .err c2 =>
            if c2 = "permission-denied" then (.err c2, 2, [1000])
            else
              match op 3 with
              | .ok a => (.ok a, 3, [1000, 2000])
              | .err c3 => (.err c3, 3, [1000, 2000]) := by
  rcases h1 : op 1 with a1 | c1
  · simp [withRetry, withRetryGo, h1]
  · by_cases hp1 : c1 = "permission-denied"
    · simp [withRetry, withRetryGo, h1, hp1]
    · rcases h2 : op 2 with a2 | c2
      · simp [withRetry, withRetryGo, h1, h2, hp1]
      · by_cases hp2 : c2 = "permission-denied"
        · simp [withRetry, withRetryGo, h1, h2, hp1, hp2]
        · rcases h3 : op 3 with a3 | c3 <;>
            simp [withRetry, withRetryGo, h1, h2, h3, hp1, hp2]

/-- The number of remote attempts recorded by `withRetry` is between 1 and
3, and the slept backoff delays are `1000 * 2 ^ (i - 1)` for exactly the
attempts `i` that were followed by a retry. -/
theorem withRetry_attempt_bounds {α : Type} (op : Nat → AttemptResult α) :
    1 ≤ (withRetry op).2.1 ∧ (withRetry op).2.1 ≤ 3 ∧
    (withRetry op).2.2 =
      (List.range ((withRetry op).2.1 - 1)).map (fun i => 1000 * 2 ^ i) := by
  rw [withRetry_cases]
  rcases op 1 with a1 | c1
  · simp
  · by_cases h1 : c1 = "permission-denied"
    · simp [h1]
    · simp only [if_neg h1]
      rcases op 2 with a2 | c2
      · simp [List.range_succ]
      · by_cases h2 : c2 = "permission-denied"
        · simp [h2, List.range_succ]
        · simp only [if_neg h2]
          rcases op 3 with a3 | c3 <;> simp [List.range_succ]

/-- C4 (confirmed): under `withRetry` with its default parameters — which
every `gameService` remote operation uses — between 1 and 3 attempts are
made; the delays slept between consecutive attempts are exactly
`1000 * 2 ^ (attempt - 1)` milliseconds (1000 ms after the first failed
attempt, 2000 ms after the second); an error whose code is
`permission-denied` on the first attempt is rethrown at once, after exactly
one attempt and with no delay slept; and the save / load / update / delete
service wrappers each perform at most 3 remote attempts. -/
theorem c4_bounded_retry {α : Type} (op : Nat → AttemptResult α) :
    (1 ≤ (withRetry op).2.1 ∧ (withRetry op).2.1 ≤ 3) ∧
    (withRetry op).2.2 =
      (List.range ((withRetry op).2.1 - 1)).map (fun i => 1000 * 2 ^ i) ∧
    (∀ c, op 1 = AttemptResult.err c → c = "permission-denied" →
      withRetry op = (AttemptResult.err c, 1, [])) ∧
    (∀ (pin : Option String) (g : RawGame)
      (radd : Nat → AttemptResult String), (dbSaveGame pin g radd).2 ≤ 3) ∧
    (∀ (pin : Option String) (gid : String) (g : RawGame)
      (rupd : Nat → AttemptResult Unit),
        (dbUpdateGame pin gid g rupd).2 ≤ 3) ∧
    (∀ (pin : Option String)
      (rq : Nat → AttemptResult (List RawGame)),
        (dbLoadGames pin rq).2 ≤ 3) ∧
    (∀ rdel : Nat → AttemptResult Unit, (dbDeleteGame rdel).2 ≤ 3) := by
  obtain ⟨hb1, hb2, hb3⟩ := withRetry_attempt_bounds op
  refine ⟨⟨hb1, hb2⟩, hb3, ?_, ?_, ?_, ?_, ?_⟩
  · intro c hc hpd
    rw [withRetry_cases, hc, hpd]
    simp
  · intro pin g radd
    unfold dbSaveGame
    rcases pin with _ | pin
    · simp
    · rcases hv : validateGameData g with e | v <;> simp only [hv]
      · simp
      · rcases hr : (withRetry radd).1 with d | c <;> simp only [hr] <;>
          exact (withRetry_attempt_bounds radd).2.1
  · intro pin gid g rupd
    unfold dbUpdateGame
    rcases pin with _ | pin
    · simp
    · rcases hv : validateGameData g with e | v <;> simp only [hv]
      · simp
      · rcases hr : (withRetry rupd).1 with d | c <;> simp only [hr] <;>
          exact (withRetry_attempt_bounds rupd).2.1
  · intro pin rq
    unfold dbLoadGames
    rcases pin with _ | pin
    · simp
    · rcases hr : (withRetry rq).1 with d | c <;> simp only [hr] <;>
        exact (withRetry_attempt_bounds rq).2.1
  · intro rdel
    unfold dbDeleteGame
    rcases hr : (withRetry rdel).1 with d | c <;> simp only [hr] <;>
      exact (withRetry_attempt_bounds rdel).2.1

/-- Witness for `c4_bounded_retry`: an operation that fails its first
attempt with `permission-denied` is rethrown immediately after exactly one
attempt, with no backoff delay slept. -/
theorem c4_bounded_retry_witness :
    withRetry (fun _ => (AttemptResult.err ("permission-denied") :
        AttemptResult Unit)) =
      (AttemptResult.err ("permission-denied"), 1, []) :=
  (c4_bounded_retry _).2.2.1 _ rfl rfl

/-- A component state whose our-side goal list has reached
`MAX_GOALS_PER_GAME`. -/
def fullState : GameStatsState :=
  { initialState "2026-01-01" with
      ourGoals := List.replicate 20 ⟨"0:00", 0, 0⟩ }

/-- C5 counterexample: on a full timeline, `addOurGoal` leaves the state
unchanged but signals nothing — the source rejection path is a bare
`return`, so no `CapacityExceeded` (or any other) error value is ever
produced. -/
theorem c5_no_capacity_signal :
    addOurGoal 10000 fullState = (fullState, none) ∧
    (none : Option GoalSignal) ≠ some GoalSignal.capacityExceeded := by
  decide

/-- C5 (amended): `addOurGoal`/`addTheirGoal` append a goal stamped with the
current game-clock position (formatted time and minute) and arm the lock;
once the side has reached the maximum of 20 goals the call is a silent
no-op: the state is unchanged and no `CapacityExceeded` signal is raised
(the UI separately disables the button). -/
theorem c5_add_goal (now : Nat) (s : GameStatsState) :
    (MAX_GOALS_PER_GAME ≤ s.ourGoals.length →
      addOurGoal now s = (s, none)) ∧
    (MAX_GOALS_PER_GAME ≤ s.theirGoals.length →
      addTheirGoal now s = (s, none)) ∧
    (isAddingGoal now s = false →
      s.ourGoals.length < MAX_GOALS_PER_GAME →
      addOurGoal now s =
        ({ s with
            lockUntil := now + 500,
            ourGoals := s.ourGoals ++
              [⟨formatTime s.halftimeSeconds, s.halftimeSeconds / 60,
                now⟩] }, none)) ∧
    (isAddingGoal now s = false →
      s.theirGoals.length < MAX_GOALS_PER_GAME →
      addTheirGoal now s =
        ({ s with
            lockUntil := now + 500,
            theirGoals := s.theirGoals ++
              [⟨formatTime s.halftimeSeconds, s.halftimeSeconds / 60,
                now⟩] }, none)) := by
  refine ⟨?_, ?_, ?_, ?_⟩
  · intro h
    simp [addOurGoal, h]
  · intro h
    simp [addTheirGoal, h]
  · intro hlock hlen
    simp [addOurGoal, hlock, Nat.not_le.mpr hlen]
  · intro hlock hlen
    simp [addTheirGoal, hlock, Nat.not_le.mpr hlen]

/-- Witness for `c5_add_goal`: the no-op on the full state and a successful
append on the fresh state at game-clock second 0. -/
theorem c5_add_goal_witness :
    addOurGoal 10000 fullState = (fullState, none) ∧
    addOurGoal 1000 (initialState "2026-01-01") =
      ({ initialState "2026-01-01" with
          lockUntil := 1500,
          ourGoals := [⟨"0:00", 0, 1000⟩] }, none) :=
  ⟨(c5_add_goal 10000 fullState).1 (by decide),
   (c5_add_goal 1000 (initialState "2026-01-01")).2.2.1 (by decide)
     (by decide)⟩

/-- A paused timer sitting in the second half with 5 minutes on the clock. -/
def pausedSecondHalf : TimerState :=
  { seconds := 300, isRunning := false, currentHalf := 2,
    accumulated := 300, startTime := none, halftimeMinutes := 30 }

/-- C6 counterexample: with the timer paused in the second half, the claim
says the duration change is allowed and resets the game; in the source the
selector is disabled (`isRunning || currentHalf === 2`), so the change is
silently dropped: the state is unchanged, elapsed stays 300 and the
duration stays 30. -/
theorem c6_paused_second_half_rejected :
    setDuration 45 pausedSecondHalf = pausedSecondHalf ∧
    pausedSecondHalf.isRunning = false ∧
    pausedSecondHalf.seconds = 300 ∧
    pausedSecondHalf.halftimeMinutes = 30 := by
  decide

/-- C6 (amended): a duration change is possible only while the timer is not
running and the game is in the first half; an allowed in-range change
resets the game to first-half paused with elapsed 0 and the new duration;
while running, or in the second half, the selector is disabled so the
change is silently dropped with the timer state unchanged — no validation
error is raised. -/
theorem c6_duration_change (m : Nat) (s : TimerState) :
    (s.isRunning = false → s.currentHalf ≠ 2 → 1 ≤ m → m ≤ 90 →
      setDuration m s =
        { seconds := 0, isRunning := false, currentHalf := 1,
          accumulated := 0, startTime := none, halftimeMinutes := m }) ∧
    (s.isRunning = true → setDuration m s = s) ∧
    (s.currentHalf = 2 → setDuration m s = s) := by
  refine ⟨?_, ?_, ?_⟩
  · intro hr hh hm1 hm2
    have hcond : (m < 1 || 90 < m) = false := by
      simp only [Bool.or_eq_false_iff, decide_eq_false_iff_not]
      omega
    simp [setDuration, canChangeDuration, resetTimer, hr, hh, hcond]
    omega
  · intro hr
    simp [setDuration, canChangeDuration, hr]
  · intro hh
    simp [setDuration, canChangeDuration, hh]

/-- Witness for `c6_duration_change`: changing 30 to 45 on a paused
first-half timer with elapsed time resets it, and the same change on a
running timer is dropped. -/
theorem c6_duration_change_witness :
    setDuration 45 (pauseTimer 60000 (startTimer 0 (timerInit 30))) =
      { seconds := 0, isRunning := false, currentHalf := 1,
        accumulated := 0, startTime := none, halftimeMinutes := 45 } ∧
    setDuration 45 (startTimer 0 (timerInit 30)) =
      startTimer 0 (timerInit 30) :=
  ⟨(c6_duration_change 45 (pauseTimer 60000 (startTimer 0 (timerInit 30)))).1
      (by decide) (by decide) (by decide) (by decide),
   (c6_duration_change 45 (startTimer 0 (timerInit 30))).2.1 (by decide)⟩

instance : IsTotal TaggedGoal tgByTimestamp :=
  ⟨fun a b => Nat.le_total a.timestamp b.timestamp⟩

instance : IsTrans TaggedGoal tgByTimestamp :=
  ⟨fun _ _ _ hab hbc => Nat.le_trans hab hbc⟩

/-- The component state after `addOurGoal` at game-clock positions 10 s,
185 s and 2710 s (wall clock 1000, 2000, 3000 ms, outside the lock
window). -/
def scenarioState : GameStatsState :=
  (addOurGoal 3000 (handleHalftimeUpdate 2710
    ((addOurGoal 2000 (handleHalftimeUpdate 185
      ((addOurGoal 1000 (handleHalftimeUpdate 10
        (initialState "2026-01-01"))).1))).1))).1

/-- C7 counterexample: the exported CSV timeline sorts the formatted
strings lexicographically, so a goal at game-clock 600 s (formatted
`10:00`) is listed before a goal at 120 s (formatted `2:00`), although
120 < 600 — the merged export is not ordered by `gameClockSeconds`. -/
theorem c7_csv_not_clock_ordered :
    formatTime 600 = "10:00" ∧ formatTime 120 = "2:00" ∧
    csvTimeline [⟨formatTime 600, 600 / 60, 1000⟩]
        [⟨formatTime 120, 120 / 60, 2000⟩] =
      ["10:00 Us", "2:00 Them"] ∧
    (120 : Nat) < 600 := by
  decide

/-- C7 (amended): the displayed timeline contains every goal of both sides
and is ordered by insertion wall-clock timestamp, and the CSV export is
ordered lexicographically by formatted time string — neither by
`(gameClockSeconds, sequence)`.  The lexicographic CSV order can disagree
with the clock even for goals added in ascending clock order: goals at
300 s (`5:00`) and then 720 s (`12:00`) export as `12:00` before `5:00`.
The specific scenario holds: three `addOurGoal` calls at clock positions
10 s, 185 s and 2710 s yield exactly three entries in ascending clock
order with minutes 0, 3 and 45 (their formatted times sort
lexicographically like the clock because the leading digits ascend). -/
theorem c7_timeline (our their : List Goal) :
    (displayTimeline our their).Perm
      ((our.map fun g => TaggedGoal.mk g.time g.minute g.timestamp true) ++
       (their.map fun g =>
         TaggedGoal.mk g.time g.minute g.timestamp false)) ∧
    (displayTimeline our their).Sorted tgByTimestamp ∧
    (formatTime 300 = "5:00" ∧ formatTime 720 = "12:00" ∧
      csvTimeline [⟨formatTime 300, 300 / 60, 1000⟩,
          ⟨formatTime 720, 720 / 60, 2000⟩] [] =
        ["12:00 Us", "5:00 Us"]) ∧
    scenarioState.ourGoals =
      [⟨"0:10", 0, 1000⟩, ⟨"3:05", 3, 2000⟩, ⟨"45:10", 45, 3000⟩] ∧
    scenarioState.theirGoals = [] ∧
    displayTimeline scenarioState.ourGoals scenarioState.theirGoals =
      [⟨"0:10", 0, 1000, true⟩, ⟨"3:05", 3, 2000, true⟩,
       ⟨"45:10", 45, 3000, true⟩] ∧
    (displayTimeline scenarioState.ourGoals scenarioState.theirGoals).map
      TaggedGoal.minute = [0, 3, 45] ∧
    (displayTimeline scenarioState.ourGoals scenarioState.theirGoals).map
      TaggedGoal.time = [formatTime 10, formatTime 185, formatTime 2710] ∧
    csvTimeline scenarioState.ourGoals scenarioState.theirGoals =
      ["0:10 Us", "3:05 Us", "45:10 Us"] :=
  ⟨List.perm_insertionSort tgByTimestamp _,
   List.sorted_insertionSort tgByTimestamp _,
   by decide, by decide, by decide, by decide, by decide, by decide,
   by decide⟩

/-- C8 counterexample: the legacy App variant updates every counter with
`prev[stat] + delta` and its minus button passes `delta = -1`, so
decrementing a counter that is at 0 produces -1 instead of a no-op. -/
theorem c8_legacy_decrement_negative :
    handleStatChange 0 (-1) = -1 ∧ ((-1 : Int) < 0) := by
  decide

/-- C8 (amended): for the `increment`/`decrement` helpers of the GameStats
component the claim holds — decrement at 0 is a no-op and no sequence of
presses drives a counter negative; the legacy App variant cited by the
claim lacks the floor and does go negative. -/
theorem c8_decrement_floor :
    decrement 0 = 0 ∧
    (∀ v : Int, 0 ≤ v → 0 ≤ decrement v ∧ 0 ≤ increment v) ∧
    (∀ (ops : List StatOp) (v : Int), 0 ≤ v → 0 ≤ applyOps ops v) := by
  refine ⟨by decide, ?_, ?_⟩
  · intro v hv
    constructor
    · unfold decrement
      split <;> omega
    · unfold increment
      omega
  · intro ops
    induction ops with
    | nil =>
      intro v hv
      simpa [applyOps] using hv
    | cons op rest ih =>
      intro v hv
      simp only [applyOps]
      cases op with
      | inc =>
        refine ih _ ?_
        show 0 ≤ increment v
        unfold increment
        omega
      | dec =>
        refine ih _ ?_
        show 0 ≤ decrement v
        unfold decrement
        split <;> omega

/-- Witness for `c8_decrement_floor`: a press sequence with more decrements
than increments starting from 0 stays non-negative. -/
theorem c8_decrement_floor_witness :
    0 ≤ applyOps [StatOp.dec, StatOp.dec, StatOp.inc, StatOp.dec,
      StatOp.dec] 0 :=
  c8_decrement_floor.2.2 _ 0 (by decide)

/-- The coerced value of every numeric field is a non-negative integer. -/
theorem coerceNumeric_nonneg (v : JsVal) : 0 ≤ coerceNumeric v := by
  cases v with
  | nan => simp [coerceNumeric]
  | num q =>
    show 0 ≤ if q < 0 then 0 else ⌊q⌋
    split
    · simp
    · next h => exact Int.floor_nonneg.mpr (le_of_not_lt h)

/-- A falsy required field makes `validateGameData` throw. -/
theorem validateGameData_error_of_falsy (g : RawGame)
    (h : (jsFalsy g.date || jsFalsy g.playerName) = true) :
    ∃ e, validateGameData g = Except.error e := by
  unfold validateGameData
  rw [Bool.or_eq_true] at h
  rcases h with hd | hp
  · simp [hd]
  · by_cases hd : jsFalsy g.date <;> simp [hd, hp]

/-- C9 (confirmed): a record whose `date` or `playerName` is missing makes
both `saveGame` and `updateGame` throw a `DatabaseError` with zero remote
write attempts — nothing is persisted; and whenever `validateGameData`
passes a record through, every listed numeric field still present on it
carries a non-negative integer value (NaN and negatives coerced to 0, other
values floored). -/
theorem c9_validation_gate :
    (∀ (pin : Option String) (g : RawGame)
      (radd : Nat → AttemptResult String),
      (jsFalsy g.date || jsFalsy g.playerName) = true →
        (∃ e, (dbSaveGame pin g radd).1 = Except.error e) ∧
        (dbSaveGame pin g radd).2 = 0) ∧
    (∀ (pin : Option String) (gid : String) (g : RawGame)
      (rupd : Nat → AttemptResult Unit),
      (jsFalsy g.date || jsFalsy g.playerName) = true →
        (∃ e, (dbUpdateGame pin gid g rupd).1 = Except.error e) ∧
        (dbUpdateGame pin gid g rupd).2 = 0) ∧
    (∀ (g v : RawGame), validateGameData g = Except.ok v →
      ∀ (f : String) (w : JsVal), (f, w) ∈ v.nums → f ∈ numericFields →
        ∃ n : Int, 0 ≤ n ∧ w = JsVal.num (n : ℚ)) := by
  refine ⟨?_, ?_, ?_⟩
  · intro pin g radd h
    obtain ⟨e, he⟩ := validateGameData_error_of_falsy g h
    rcases pin with _ | pin
    · exact ⟨⟨_, rfl⟩, rfl⟩
    · unfold dbSaveGame
      simp [he]
  · intro pin gid g rupd h
    obtain ⟨e, he⟩ := validateGameData_error_of_falsy g h
    rcases pin with _ | pin
    · exact ⟨⟨_, rfl⟩, rfl⟩
    · unfold dbUpdateGame
      simp [he]
  · intro g v hv f w hmem hf
    unfold validateGameData at hv
    by_cases hm : ((if jsFalsy g.date then ["date"] else []) ++
        (if jsFalsy g.playerName then ["playerName"] else [])).isEmpty
    · simp only [hm, Bool.not_true, Bool.false_eq_true, if_false,
        reduceIte, Except.ok.injEq] at hv
      subst hv
      simp only [List.mem_map] at hmem
      obtain ⟨⟨f0, w0⟩, hmem0, heq⟩ := hmem
      by_cases hin : f0 ∈ numericFields
      · simp only [hin, if_true, reduceIte, Prod.mk.injEq] at heq
        exact ⟨coerceNumeric w0, coerceNumeric_nonneg w0, heq.2.symm⟩
      · simp only [hin, if_false, reduceIte, Prod.mk.injEq] at heq
        exact absurd (heq.1 ▸ hf) hin
    · simp [hm] at hv

/-- Witness for `c9_validation_gate`: a record missing its date is rejected
with no remote attempt, and a record carrying a negative `goalsLeft` is
persisted with that field coerced to the non-negative integer 0. -/
theorem c9_validation_gate_witness :
    ((∃ e, (dbSaveGame (some "1234")
        { date := "", playerName := "Alice", nums := [] }
        (fun _ => AttemptResult.ok ("id1"))).1 = Except.error e) ∧
      (dbSaveGame (some "1234")
        { date := "", playerName := "Alice", nums := [] }
        (fun _ => AttemptResult.ok ("id1"))).2 = 0) ∧
    (∃ n : Int, 0 ≤ n ∧ JsVal.num ((0 : Int) : ℚ) = JsVal.num (n : ℚ)) :=
  ⟨(c9_validation_gate.1 (some "1234")
      { date := "", playerName := "Alice", nums := [] }
      (fun _ => AttemptResult.ok ("id1")) (by decide)),
   (c9_validation_gate.2.2
      { date := "2026-01-01", playerName := "Alice",
        nums := [("goalsLeft", JsVal.num (-3))] }
      { date := "2026-01-01", playerName := "Alice",
        nums := [("goalsLeft", JsVal.num ((0 : Int) : ℚ))] }
      (by rfl) "goalsLeft" (JsVal.num ((0 : Int) : ℚ))
      (by simp) (by decide))⟩

/-- C10 (confirmed): a successful `addOurGoal` or `addTheirGoal` arms the
shared `isAddingGoal` lock, and for the following 500 ms all four live goal
operations — both adds and both undos — are no-ops. -/
theorem c10_goal_lock (s : GameStatsState) (t t2 : Nat)
    (hlock : isAddingGoal t s = false) (hwin : t2 < t + 500) :
    (s.ourGoals.length < MAX_GOALS_PER_GAME →
      (addOurGoal t2 (addOurGoal t s).1 = ((addOurGoal t s).1, none) ∧
       addTheirGoal t2 (addOurGoal t s).1 = ((addOurGoal t s).1, none) ∧
       removeLastOurGoal t2 (addOurGoal t s).1 = (addOurGoal t s).1 ∧
       removeLastTheirGoal t2 (addOurGoal t s).1 = (addOurGoal t s).1)) ∧
    (s.theirGoals.length < MAX_GOALS_PER_GAME →
      (addOurGoal t2 (addTheirGoal t s).1 = ((addTheirGoal t s).1, none) ∧
       addTheirGoal t2 (addTheirGoal t s).1 = ((addTheirGoal t s).1, none) ∧
       removeLastOurGoal t2 (addTheirGoal t s).1 = (addTheirGoal t s).1 ∧
       removeLastTheirGoal t2 (addTheirGoal t s).1 =
         (addTheirGoal t s).1)) := by
  constructor
  · intro hlen
    have hs1 : (addOurGoal t s).1 =
        { s with
            lockUntil := t + 500,
            ourGoals := s.ourGoals ++
              [⟨formatTime s.halftimeSeconds, s.halftimeSeconds / 60,
                t⟩] } := by
      simp [addOurGoal, hlock, Nat.not_le.mpr hlen]
    rw [hs1]
    have hlk : isAddingGoal t2
        ({ s with
            lockUntil := t + 500,
            ourGoals := s.ourGoals ++
              [⟨formatTime s.halftimeSeconds, s.halftimeSeconds / 60,
                t⟩] } : GameStatsState) = true := by
      simpa [isAddingGoal] using hwin
    refine ⟨?_, ?_, ?_, ?_⟩ <;>
      simp [addOurGoal, addTheirGoal, removeLastOurGoal,
        removeLastTheirGoal, hlk]
  · intro hlen
    have hs1 : (addTheirGoal t s).1 =
        { s with
            lockUntil := t + 500,
            theirGoals := s.theirGoals ++
              [⟨formatTime s.halftimeSeconds, s.halftimeSeconds / 60,
                t⟩] } := by
      simp [addTheirGoal, hlock, Nat.not_le.mpr hlen]
    rw [hs1]
    have hlk : isAddingGoal t2
        ({ s with
            lockUntil := t + 500,
            theirGoals := s.theirGoals ++
              [⟨formatTime s.halftimeSeconds, s.halftimeSeconds / 60,
                t⟩] } : GameStatsState) = true := by
      simpa [isAddingGoal] using hwin
    refine ⟨?_, ?_, ?_, ?_⟩ <;>
      simp [addOurGoal, addTheirGoal, removeLastOurGoal,
        removeLastTheirGoal, hlk]

/-- Witness for `c10_goal_lock`: 200 ms after a successful goal on the
fresh state, adding another goal for the same side is a no-op. -/
theorem c10_goal_lock_witness :
    addOurGoal 1200 (addOurGoal 1000 (initialState "2026-01-01")).1 =
      ((addOurGoal 1000 (initialState "2026-01-01")).1, none) :=
  ((c10_goal_lock (initialState "2026-01-01") 1000 1200 (by decide)
    (by decide)).1 (by decide)).1

end SoccerApp
